import Mathlib

/-!
Verification development for the `authsession` package (sessions.go).

The Go source is shallowly embedded below.  HTTP requests are represented by
the data the handlers actually read (the decoded session cookie, the `state`
and `code` form values); the external world (the crypto random source, the
identity provider's token-exchange and profile endpoints, the cookie store's
save operation) is passed in explicitly as data, since the handlers only
observe its results.  Each handler returns a result record listing, in order,
the response actions it wrote, the session value (if any) it passed to
`session.Save`, and the `Auth` value as it stands when the handler returns.
-/

namespace Authsession

/-- Dynamic values stored in the gorilla session value bag
    (`session.Values`); this package stores booleans and strings there. -/
inductive SessionValue where
  | vBool : Bool → SessionValue
  | vStr : String → SessionValue
  deriving DecidableEq, Repr

/-- A decoded session: the key/value bag plus the cookie max-age option
    (`session.Options.MaxAge`, absent until explicitly set). -/
structure Session where
  values : List (String × SessionValue)
  maxAge : Option Nat
  deriving DecidableEq, Repr

/-- Read a key from the session value bag (`session.Values[k]`). -/
def Session.get (s : Session) (k : String) : Option SessionValue :=
  (s.values.find? (fun p => p.1 == k)).map Prod.snd

/-- Write a key in the session value bag (`session.Values[k] = v`). -/
def Session.set (s : Session) (k : String) (v : SessionValue) : Session :=
  { s with values := (k, v) :: s.values.filter (fun p => !(p.1 == k)) }

/-- The fresh, empty session `store.Get` yields when the request carries no
    cookie or a cookie that fails the signature check. -/
def emptySession : Session := { values := [], maxAge := none }

/-- The oauth2 configuration built by `newOauthConfig`. -/
structure OauthConfig where
  redirectURL : String
  clientID : String
  clientSecret : String
  scopes : List String
  deriving DecidableEq, Repr

/-- `newOauthConfig` from sessions.go: deterministic construction of the
    provider configuration from protocol, host, port and credentials. -/
def newOauthConfig (proto host port clientIDKey clientSecret : String) : OauthConfig :=
  { redirectURL := proto ++ "://" ++ host ++ ":" ++ port ++ "/callback"
    clientID := clientIDKey
    clientSecret := clientSecret
    scopes := ["https://www.googleapis.com/auth/userinfo.email",
               "https://www.googleapis.com/auth/userinfo.profile"] }

/-- The shared `Auth` value: provider config, the single process-wide
    state token slot, and the cookie store (represented by its key). -/
structure Auth where
  googleOauthConfig : OauthConfig
  oauthStateString : String
  storeKey : String
  deriving DecidableEq, Repr

/-- An oauth2 token credential as far as this package observes it:
    `Token.Valid()` in the library checks the receiver is non-nil, the
    access token non-empty and the token not expired. -/
structure Token where
  accessToken : String
  expiredFlag : Bool
  deriving DecidableEq, Repr

/-- `token.Valid()` of the oauth2 library, on a possibly nil `*Token`:
    true iff the pointer is non-nil, the access token non-empty and the
    token not expired. -/
def tokenValid : Option Token → Bool
  | none => false
  | some t => t.accessToken != "" && !t.expiredFlag

/-- The base64url alphabet used by `encoding/base64.URLEncoding`. -/
def base64URLChars : List Char :=
  "ABCDEFGHIJKLMNOPQRSTUVWXYZabcdefghijklmnopqrstuvwxyz0123456789-_".toList

/-- Character for a six-bit group. -/
def b64Char (n : Nat) : Char := base64URLChars.getD n 'A'

/-- `base64.URLEncoding.EncodeToString` on a byte list: standard padded
    base64 over the URL-safe alphabet; the empty input encodes to `""`. -/
def base64URLEncode : List Nat → String
  | [] => ""
  | [b1] =>
      String.mk [b64Char (b1 / 4 % 64), b64Char (b1 % 4 * 16), '=', '=']
  | [b1, b2] =>
      String.mk [b64Char (b1 / 4 % 64), b64Char (b1 % 4 * 16 + b2 / 16 % 16),
                 b64Char (b2 % 16 * 4), '=']
  | b1 :: b2 :: b3 :: rest =>
      String.mk [b64Char (b1 / 4 % 64), b64Char (b1 % 4 * 16 + b2 / 16 % 16),
                 b64Char (b2 % 16 * 4 + b3 / 64 % 4), b64Char (b3 % 64)]
        ++ base64URLEncode rest

/-- `createRandomKey(size)`: reads `size` random bytes, or fails when the
    crypto random source cannot supply data.  The random source is passed
    in as `randSrc` (`none` models a failing `rand.Read`, in which case the
    Go function returns `nil, err`); on success the buffer is filled to
    exactly `size` bytes. -/
def createRandomKey (size : Nat) (randSrc : Option (List Nat)) : Option (List Nat) :=
  randSrc.map (fun bs => (bs ++ List.replicate size 0).take size)

/-- `AuthCodeURL(state)` of the oauth2 library: deterministic construction
    of the provider authorization URL from the config, scopes and the
    state token. -/
def authCodeURL (c : OauthConfig) (state : String) : String :=
  "https://accounts.google.com/o/oauth2/auth?client_id=" ++ c.clientID ++
    "&redirect_uri=" ++ c.redirectURL ++ "&response_type=code&scope=" ++
    String.intercalate "+" c.scopes ++ "&state=" ++ state

/-- A response action written by a handler: an HTTP redirect
    (`http.Redirect`) or an HTTP error (`http.Error`), with status code. -/
inductive ResponseAction where
  | redirect : String → Nat → ResponseAction
  | httpError : String → Nat → ResponseAction
  deriving DecidableEq, Repr

/-- Result of the `login` handler. -/
structure LoginResult where
  actions : List ResponseAction
  authOut : Auth
  deriving DecidableEq, Repr

/-- The `/slogin` handler.  `randSrc` is the crypto random source for this
    request (`none`: `rand.Read` fails).  Faithful to the source: a failure
    of `createRandomKey` is only logged, `stateStringRAW` stays `nil`, the
    empty byte string is base64-encoded into the state slot, and the
    provider redirect is issued regardless. -/
def login (a : Auth) (randSrc : Option (List Nat)) : LoginResult :=
  let stateStringRAW := (createRandomKey 16 randSrc).getD []
  let a := { a with oauthStateString := base64URLEncode stateStringRAW }
  let url := authCodeURL a.googleOauthConfig a.oauthStateString
  { actions := [ResponseAction.redirect url 307], authOut := a }

/-- Result of the `logout` handler.  `savedSession` is the session value
    passed to `session.Save` (`none` would mean Save was never invoked). -/
structure LogoutResult where
  actions : List ResponseAction
  savedSession : Option Session
  authOut : Auth
  deriving DecidableEq, Repr

/-- The `/slogout` handler.  `cookie` is the request's decoded session
    (`none`: no cookie or a cookie failing the integrity check, for which
    `store.Get` yields a fresh session and an error that is only logged);
    `saveOk` is the outcome of `session.Save`.  Sets `authenticated` to
    `false`, saves, and redirects on success; on save failure it returns
    without redirecting. -/
def logout (a : Auth) (cookie : Option Session) (saveOk : Bool) : LogoutResult :=
  let session := cookie.getD emptySession
  let session := session.set "authenticated" (SessionValue.vBool false)
  if saveOk then
    { actions := [ResponseAction.redirect "/" 307]
      savedSession := some session, authOut := a }
  else
    { actions := [], savedSession := some session, authOut := a }

/-- Result of the `IsAuthenticated` wrapper on one request. -/
structure GateResult where
  wrappedInvoked : Bool
  actions : List ResponseAction
  sessionOut : Session
  authOut : Auth
  deriving DecidableEq, Repr

/-- The `IsAuthenticated` wrapper: load the session (decode failure again
    yields a fresh empty session, the error is discarded), type-assert
    `session.Values["authenticated"]` to `bool`; unless that yields `true`,
    respond `Forbidden` (403) and never invoke the wrapped handler. -/
def IsAuthenticated (a : Auth) (cookie : Option Session) : GateResult :=
  let session := cookie.getD emptySession
  match session.get "authenticated" with
  | some (SessionValue.vBool true) =>
      { wrappedInvoked := true, actions := [], sessionOut := session, authOut := a }
  | _ =>
      { wrappedInvoked := false
        actions := [ResponseAction.httpError "Forbidden" 403]
        sessionOut := session, authOut := a }

/-- The user-profile JSON object unmarshalled in the callback handler. -/
structure UserInfo where
  id : String
  email : String
  verifiedEmail : Bool
  picture : String
  fullName : String
  firstName : String
  lastName : String
  deriving DecidableEq, Repr

/-- The zero value of the `userInfo` struct, as left by a failed
    `json.Unmarshal`. -/
def UserInfo.zero : UserInfo :=
  { id := "", email := "", verifiedEmail := false, picture := ""
    fullName := "", firstName := "", lastName := "" }

/-- Outcome of the provider profile-endpoint call made inside
    `getUserInfo`: either the HTTP GET (or body read) fails, or it yields a
    body; a body is represented by its JSON-decode outcome (`none`: the
    bytes do not unmarshal into the `userInfo` struct). -/
inductive FetchOutcome where
  | fetchFailed : FetchOutcome
  | body : Option UserInfo → FetchOutcome
  deriving DecidableEq, Repr

/-- `getUserInfo(state, token)`: first re-checks `state` against the held
    `oauthStateString`, returning an error (`none`) on mismatch; otherwise
    performs the profile fetch, whose outcome is `fetch`.  The returned
    `some raw` stands for the raw bytes, carried as their decode outcome. -/
def getUserInfo (a : Auth) (state : String) (fetch : FetchOutcome) :
    Option (Option UserInfo) :=
  if state ≠ a.oauthStateString then
    none
  else
    match fetch with
    | FetchOutcome.fetchFailed => none
    | FetchOutcome.body p => some p

/-- External-world inputs of one `/callback` request: the result of
    `googleOauthConfig.Exchange(code)` (`none`: the exchange errored, in
    which case the library returns a nil token), the profile-endpoint
    outcome, the session `store.Get` yields for this request, and the
    outcome of `session.Save`. -/
structure ProviderEnv where
  exchangeResult : Option Token
  fetch : FetchOutcome
  loadedSession : Session
  saveOk : Bool
  deriving DecidableEq, Repr

/-- The session-population step of the callback handler: set
    `authenticated`, `id`, `fullname`, `email`, `state` in the value bag
    and the 8-hour max-age, exactly as lines 186–199 of sessions.go do. -/
def finalizeSession (s : Session) (state : String) (u : UserInfo) : Session :=
  let s := s.set "authenticated" (SessionValue.vBool true)
  let s := s.set "id" (SessionValue.vStr u.id)
  let s := s.set "fullname" (SessionValue.vStr u.fullName)
  let s := s.set "email" (SessionValue.vStr u.email)
  let s := s.set "state" (SessionValue.vStr state)
  { s with maxAge := some (60 * 60 * 8) }

/-- Result of the `/callback` handler.  `actions` lists the response
    actions in the order written; `savedSession` is the session value
    passed to `session.Save` (`none`: Save never invoked); `fetchInvoked`
    records whether `getUserInfo` ran. -/
structure CallbackResult where
  actions : List ResponseAction
  savedSession : Option Session
  fetchInvoked : Bool
  saveSucceeded : Bool
  authOut : Auth
  deriving DecidableEq, Repr

/-- The `/callback` handler, faithful to the source's control flow:
    an exchange error is logged and a redirect written but the handler
    does NOT return there; it then hits `token.Valid()` — false for the
    nil token an errored exchange yields — and returns.  A `getUserInfo`
    error (state mismatch, fetch failure) is only logged and the flow
    continues with the zero-valued `userInfo`; the session is then
    populated with `authenticated = true` and saved.  A save failure
    returns without the final redirect. -/
def handleGoogleCallback (a : Auth) (state code : String) (env : ProviderEnv) :
    CallbackResult :=
  let token := env.exchangeResult
  let acts0 : List ResponseAction :=
    if token.isNone then [ResponseAction.redirect "/" 307] else []
  if tokenValid token then
    let raw := getUserInfo a state env.fetch
    let userInfo :=
      match raw with
      | some (some u) => u
      | _ => UserInfo.zero
    let session := finalizeSession env.loadedSession state userInfo
    if env.saveOk then
      { actions := acts0 ++ [ResponseAction.redirect "/" 307]
        savedSession := some session, fetchInvoked := true
        saveSucceeded := true, authOut := a }
    else
      { actions := acts0, savedSession := some session, fetchInvoked := true
        saveSucceeded := false, authOut := a }
  else
    { actions := acts0, savedSession := none, fetchInvoked := false
      saveSucceeded := false, authOut := a }

/-! Helper lemmas about the session value bag. -/

/-- Reading back the key just written yields the written value. -/
theorem Session.get_set_same (s : Session) (k : String) (v : SessionValue) :
    (s.set k v).get k = some v := by
  simp [Session.get, Session.set, List.find?]

/-- Filtering out entries for key `k` does not change lookups of a key
    `k'` different from `k`. -/
theorem find?_key_filter (l : List (String × SessionValue)) (k k' : String)
    (h : k' ≠ k) :
    (l.filter (fun p => !(p.1 == k))).find? (fun p => p.1 == k') =
      l.find? (fun p => p.1 == k') := by
  induction l with
  | nil => rfl
  | cons hd tl ih =>
    by_cases hk : hd.1 = k
    · have hk' : (k == k') = false := by
        simp
        exact fun e => h e.symm
      simp [List.filter_cons, hk, List.find?, hk', ih]
    · simp only [List.filter_cons]
      have hkb : (hd.1 == k) = false := by simp [hk]
      simp only [hkb, Bool.not_false, if_pos]
      by_cases hc : hd.1 = k'
      · simp [List.find?, hc]
      · have hcb : (hd.1 == k') = false := by simp [hc]
        simp [List.find?, hcb, ih]

/-- Writing key `k` does not change the value read at a different key. -/
theorem Session.get_set_ne (s : Session) (k k' : String) (v : SessionValue)
    (h : k' ≠ k) :
    (s.set k v).get k' = s.get k' := by
  have hb : ((k, v).1 == k') = false := by
    simp only [Prod.fst]
    simp
    exact fun e => h e.symm
  simp only [Session.get, Session.set, List.find?, hb]
  rw [find?_key_filter _ _ _ h]

/-- Writing a value-bag key leaves the max-age option unchanged. -/
theorem Session.maxAge_set (s : Session) (k : String) (v : SessionValue) :
    (s.set k v).maxAge = s.maxAge := rfl

/-- Overriding the max-age option leaves value-bag lookups unchanged. -/
theorem Session.get_withMaxAge (s : Session) (m : Option Nat) (k : String) :
    Session.get { s with maxAge := m } k = s.get k := rfl

/-! Helper lemmas about the callback's session-population step. -/

theorem finalizeSession_get_authenticated (s : Session) (st : String) (u : UserInfo) :
    (finalizeSession s st u).get "authenticated" = some (SessionValue.vBool true) := by
  simp only [finalizeSession, Session.get_withMaxAge]
  rw [Session.get_set_ne _ _ _ _ (by decide),
      Session.get_set_ne _ _ _ _ (by decide),
      Session.get_set_ne _ _ _ _ (by decide),
      Session.get_set_ne _ _ _ _ (by decide),
      Session.get_set_same]

theorem finalizeSession_get_id (s : Session) (st : String) (u : UserInfo) :
    (finalizeSession s st u).get "id" = some (SessionValue.vStr u.id) := by
  simp only [finalizeSession, Session.get_withMaxAge]
  rw [Session.get_set_ne _ _ _ _ (by decide),
      Session.get_set_ne _ _ _ _ (by decide),
      Session.get_set_ne _ _ _ _ (by decide),
      Session.get_set_same]

theorem finalizeSession_get_fullname (s : Session) (st : String) (u : UserInfo) :
    (finalizeSession s st u).get "fullname" = some (SessionValue.vStr u.fullName) := by
  simp only [finalizeSession, Session.get_withMaxAge]
  rw [Session.get_set_ne _ _ _ _ (by decide),
      Session.get_set_ne _ _ _ _ (by decide),
      Session.get_set_same]

theorem finalizeSession_get_email (s : Session) (st : String) (u : UserInfo) :
    (finalizeSession s st u).get "email" = some (SessionValue.vStr u.email) := by
  simp only [finalizeSession, Session.get_withMaxAge]
  rw [Session.get_set_ne _ _ _ _ (by decide), Session.get_set_same]

theorem finalizeSession_get_state (s : Session) (st : String) (u : UserInfo) :
    (finalizeSession s st u).get "state" = some (SessionValue.vStr st) := by
  simp only [finalizeSession, Session.get_withMaxAge]
  rw [Session.get_set_same]

theorem finalizeSession_maxAge (s : Session) (st : String) (u : UserInfo) :
    (finalizeSession s st u).maxAge = some (60 * 60 * 8) := rfl

/-! Concrete fixtures used in counterexamples and witnesses. -/

def cfg0 : OauthConfig := newOauthConfig "http" "localhost" "8080" "cid" "csecret"

def auth0 : Auth :=
  { googleOauthConfig := cfg0, oauthStateString := "goodstate", storeKey := "key0" }

def validToken0 : Token := { accessToken := "tok", expiredFlag := false }

def profile0 : UserInfo :=
  { id := "42", email := "a@b.com", verifiedEmail := true, picture := ""
    fullName := "A B", firstName := "A", lastName := "B" }

/-! Claim C1. -/

/-- Callback environment for C1: the exchange succeeds with a valid token
    (the `code` is good) and the provider would return a valid profile. -/
def envC1 : ProviderEnv :=
  { exchangeResult := some validToken0, fetch := FetchOutcome.body (some profile0)
    loadedSession := emptySession, saveOk := true }

/-- C1: the claim says a Callback whose `state` differs from the held
    `oauthStateString` never performs the session save.  The code refutes
    this: `getUserInfo` does return the invalid-state error, but the
    handler only logs it and proceeds to populate and SAVE a session with
    `authenticated = true` (and zero-valued identity fields), then
    redirects as on success.  Shown here at a concrete mismatched state. -/
theorem c1_mismatched_state_still_saves_session :
    "forgedstate" ≠ auth0.oauthStateString ∧
    (handleGoogleCallback auth0 "forgedstate" "validcode" envC1).savedSession =
      some (finalizeSession emptySession "forgedstate" UserInfo.zero) ∧
    (finalizeSession emptySession "forgedstate" UserInfo.zero).get "authenticated" =
      some (SessionValue.vBool true) ∧
    (handleGoogleCallback auth0 "forgedstate" "validcode" envC1).actions =
      [ResponseAction.redirect "/" 307] :=
  ⟨by decide, rfl, finalizeSession_get_authenticated _ _ _, rfl⟩

/-! Claim C2. -/

/-- C2: when the authorization-code exchange fails (the oauth2 library then
    returns a nil token), `token.Valid()` is false and the handler returns:
    `getUserInfo` is never invoked, `session.Save` is never invoked, and
    the only response action is the redirect to root written in the
    error branch.  Confirmed. -/
theorem c2_exchange_failure_short_circuits (a : Auth) (state code : String)
    (env : ProviderEnv) (h : env.exchangeResult = none) :
    (handleGoogleCallback a state code env).fetchInvoked = false ∧
    (handleGoogleCallback a state code env).savedSession = none ∧
    (handleGoogleCallback a state code env).actions =
      [ResponseAction.redirect "/" 307] := by
  unfold handleGoogleCallback
  rw [h]
  simp [tokenValid]

/-- Callback environment for the C2 witness: failing exchange. -/
def envC2 : ProviderEnv :=
  { exchangeResult := none, fetch := FetchOutcome.body (some profile0)
    loadedSession := emptySession, saveOk := true }

/-- C2 witness at a concrete failing exchange. -/
theorem c2_exchange_failure_short_circuits_witness :
    (handleGoogleCallback auth0 "goodstate" "badcode" envC2).fetchInvoked = false ∧
    (handleGoogleCallback auth0 "goodstate" "badcode" envC2).savedSession = none ∧
    (handleGoogleCallback auth0 "goodstate" "badcode" envC2).actions =
      [ResponseAction.redirect "/" 307] :=
  c2_exchange_failure_short_circuits auth0 "goodstate" "badcode" envC2 rfl

/-! Claim C3. -/

/-- Callback environment for C3: valid exchange, but the profile fetch
    fails (network error at the provider's profile endpoint). -/
def envC3 : ProviderEnv :=
  { exchangeResult := some validToken0, fetch := FetchOutcome.fetchFailed
    loadedSession := emptySession, saveOk := true }

/-- C3: the claimed invariant — every saved session with
    `authenticated = true` has non-empty `id` and `email` copied from a
    provider profile — fails on the code: when the profile fetch errors
    (here with a MATCHING state token), the error is only logged, the
    zero-valued `userInfo` is used, and a session with
    `authenticated = true`, `id = ""`, `email = ""` is saved. -/
theorem c3_saves_authenticated_session_with_empty_identity :
    (handleGoogleCallback auth0 "goodstate" "validcode" envC3).savedSession =
      some (finalizeSession emptySession "goodstate" UserInfo.zero) ∧
    (finalizeSession emptySession "goodstate" UserInfo.zero).get "authenticated" =
      some (SessionValue.vBool true) ∧
    (finalizeSession emptySession "goodstate" UserInfo.zero).get "id" =
      some (SessionValue.vStr "") ∧
    (finalizeSession emptySession "goodstate" UserInfo.zero).get "email" =
      some (SessionValue.vStr "") :=
  ⟨rfl, finalizeSession_get_authenticated _ _ _,
   finalizeSession_get_id _ _ _, finalizeSession_get_email _ _ _⟩

/-! Claim C4. -/

/-- C4: the claim says an entropy-source failure must be fatal to the
    login attempt — no fixed state token, no provider redirect.  The code
    refutes this: `login` only logs the `createRandomKey` error, encodes
    the nil byte slice into the EMPTY state string, stores it as the held
    state token, and issues the provider redirect exactly as on success. -/
theorem c4_entropy_failure_still_redirects (a : Auth) :
    (login a none).authOut.oauthStateString = "" ∧
    (login a none).actions =
      [ResponseAction.redirect (authCodeURL a.googleOauthConfig "") 307] :=
  ⟨rfl, rfl⟩

/-! Claim C5. -/

/-- C5: the authorization gate is fail-closed.  Whenever the loaded
    session's `authenticated` value is missing, of the wrong type, or the
    boolean `false`, the wrapper responds `Forbidden` (403), never invokes
    the wrapped handler, and leaves the session unchanged; whenever it is
    the boolean `true`, the wrapped handler is invoked.  Confirmed. -/
theorem c5_gate_fail_closed (a : Auth) (cookie : Option Session) :
    ((cookie.getD emptySession).get "authenticated" = some (SessionValue.vBool true) →
      (IsAuthenticated a cookie).wrappedInvoked = true) ∧
    ((cookie.getD emptySession).get "authenticated" ≠ some (SessionValue.vBool true) →
      (IsAuthenticated a cookie).wrappedInvoked = false ∧
      (IsAuthenticated a cookie).actions =
        [ResponseAction.httpError "Forbidden" 403] ∧
      (IsAuthenticated a cookie).sessionOut = cookie.getD emptySession) := by
  rcases hv : (cookie.getD emptySession).get "authenticated" with _ | v
  · simp [IsAuthenticated, hv]
  · rcases v with b | s
    · cases b
      · simp [IsAuthenticated, hv]
      · simp [IsAuthenticated, hv]
    · simp [IsAuthenticated, hv]

/-- A session whose `authenticated` value is the boolean `true`. -/
def sessAuthTrue : Session := emptySession.set "authenticated" (SessionValue.vBool true)

/-- C5 witness: at a concrete authenticated session the wrapped handler
    runs; with no cookie at all it does not. -/
theorem c5_gate_fail_closed_witness :
    (IsAuthenticated auth0 (some sessAuthTrue)).wrappedInvoked = true ∧
    (IsAuthenticated auth0 none).wrappedInvoked = false :=
  ⟨(c5_gate_fail_closed auth0 (some sessAuthTrue)).1 (by decide),
   ((c5_gate_fail_closed auth0 none).2 (by decide)).1⟩

/-! Claim C6. -/

/-- C6: end-to-end happy path.  After a login that issues a state token,
    a callback presenting exactly that token together with a code the
    provider exchanges for a valid token and a parsed profile passes state
    validation (`getUserInfo` returns the profile body), saves a session
    with `authenticated = true` and `id`, `email`, `fullname` copied from
    the profile, max-age 60·60·8 seconds, redirects to root, and a later
    protected call presenting that saved session reaches the wrapped
    handler.  Confirmed. -/
theorem c6_happy_path (a : Auth) (bs : List Nat) (code : String) (t : Token)
    (u : UserInfo) (s0 : Session) (ht : tokenValid (some t) = true) :
    getUserInfo (login a (some bs)).authOut
      (login a (some bs)).authOut.oauthStateString
      (FetchOutcome.body (some u)) = some (some u) ∧
    (handleGoogleCallback (login a (some bs)).authOut
        (login a (some bs)).authOut.oauthStateString code
        { exchangeResult := some t, fetch := FetchOutcome.body (some u)
          loadedSession := s0, saveOk := true }).savedSession =
      some (finalizeSession s0 (login a (some bs)).authOut.oauthStateString u) ∧
    (finalizeSession s0 (login a (some bs)).authOut.oauthStateString u).get
      "authenticated" = some (SessionValue.vBool true) ∧
    (finalizeSession s0 (login a (some bs)).authOut.oauthStateString u).get
      "id" = some (SessionValue.vStr u.id) ∧
    (finalizeSession s0 (login a (some bs)).authOut.oauthStateString u).get
      "email" = some (SessionValue.vStr u.email) ∧
    (finalizeSession s0 (login a (some bs)).authOut.oauthStateString u).get
      "fullname" = some (SessionValue.vStr u.fullName) ∧
    (finalizeSession s0 (login a (some bs)).authOut.oauthStateString u).maxAge =
      some (60 * 60 * 8) ∧
    (handleGoogleCallback (login a (some bs)).authOut
        (login a (some bs)).authOut.oauthStateString code
        { exchangeResult := some t, fetch := FetchOutcome.body (some u)
          loadedSession := s0, saveOk := true }).actions =
      [ResponseAction.redirect "/" 307] ∧
    (IsAuthenticated (login a (some bs)).authOut
        (some (finalizeSession s0 (login a (some bs)).authOut.oauthStateString u))
      ).wrappedInvoked = true := by
  refine ⟨by simp [getUserInfo], ?_, finalizeSession_get_authenticated _ _ _,
    finalizeSession_get_id _ _ _, finalizeSession_get_email _ _ _,
    finalizeSession_get_fullname _ _ _, finalizeSession_maxAge _ _ _, ?_, ?_⟩
  · simp [handleGoogleCallback, ht, getUserInfo]
  · simp [handleGoogleCallback, ht, getUserInfo]
  · simp [IsAuthenticated, finalizeSession_get_authenticated]

/-- Sixteen concrete bytes for the C6 witness's random source. -/
def randBytes0 : List Nat := List.replicate 16 7

/-- C6 witness at concrete inputs: the token-validity hypothesis holds at
    `validToken0` and the instantiated happy path yields the saved
    session. -/
theorem c6_happy_path_witness :
    tokenValid (some validToken0) = true ∧
    (handleGoogleCallback (login auth0 (some randBytes0)).authOut
        (login auth0 (some randBytes0)).authOut.oauthStateString "abc"
        { exchangeResult := some validToken0
          fetch := FetchOutcome.body (some profile0)
          loadedSession := emptySession, saveOk := true }).savedSession =
      some (finalizeSession emptySession
        (login auth0 (some randBytes0)).authOut.oauthStateString profile0) :=
  ⟨by decide,
   (c6_happy_path auth0 randBytes0 "abc" validToken0 profile0 emptySession
      (by decide)).2.1⟩

/-! Claim C7. -/

/-- Callback environment for the C7 counterexample: the exchange succeeds
    but yields a token with an empty access token, which `token.Valid()`
    rejects. -/
def envC7 : ProviderEnv :=
  { exchangeResult := some { accessToken := "", expiredFlag := false }
    fetch := FetchOutcome.body (some profile0)
    loadedSession := emptySession, saveOk := true }

/-- C7 counterexample: the claim says every Callback outcome responds with
    a 307 redirect to the root.  At this concrete input the exchange
    succeeds but the token is invalid, and the handler returns having
    written no response action at all — no redirect is issued. -/
theorem c7_invalid_token_writes_no_response :
    (handleGoogleCallback auth0 "goodstate" "somecode" envC7).actions = [] := rfl

/-- C7 amended: every response the Callback handler does write is a 307
    redirect to the root — success and rejection are not distinguished by
    status code — but in the invalid-token and failed-save outcomes the
    handler halts without writing any redirect. -/
theorem c7_any_written_response_is_redirect_to_root (a : Auth)
    (state code : String) (env : ProviderEnv) :
    (handleGoogleCallback a state code env).actions = [] ∨
    (handleGoogleCallback a state code env).actions =
      [ResponseAction.redirect "/" 307] := by
  simp only [handleGoogleCallback]
  rcases henv : env.exchangeResult with _ | t
  · simp [tokenValid]
  · by_cases hv : tokenValid (some t) = true
    · rcases hs : env.saveOk with _ | _
      · simp [hv]
      · simp [hv]
    · simp [hv]

/-! Claim C8. -/

/-- C8: logout loads the session, sets `authenticated` to `false`, and
    passes exactly that session to `session.Save`; on save failure it
    halts without writing any response, on save success it writes the 307
    redirect to root; and every key other than `authenticated` reads back
    unchanged.  Confirmed. -/
theorem c8_logout_contract (a : Auth) (cookie : Option Session) (saveOk : Bool)
    (k : String) (hk : k ≠ "authenticated") :
    (logout a cookie saveOk).savedSession =
      some ((cookie.getD emptySession).set "authenticated" (SessionValue.vBool false)) ∧
    ((cookie.getD emptySession).set "authenticated" (SessionValue.vBool false)).get
      "authenticated" = some (SessionValue.vBool false) ∧
    ((cookie.getD emptySession).set "authenticated" (SessionValue.vBool false)).get k =
      (cookie.getD emptySession).get k ∧
    (saveOk = true →
      (logout a cookie saveOk).actions = [ResponseAction.redirect "/" 307]) ∧
    (saveOk = false → (logout a cookie saveOk).actions = []) := by
  refine ⟨?_, Session.get_set_same _ _ _, Session.get_set_ne _ _ _ _ hk, ?_, ?_⟩
  · cases saveOk <;> rfl
  · intro h; subst h; rfl
  · intro h; subst h; rfl

/-- C8 witness at a concrete authenticated session and a succeeding save. -/
theorem c8_logout_contract_witness :
    "id" ≠ "authenticated" ∧
    (logout auth0 (some sessAuthTrue) true).savedSession =
      some (sessAuthTrue.set "authenticated" (SessionValue.vBool false)) ∧
    (logout auth0 (some sessAuthTrue) true).actions =
      [ResponseAction.redirect "/" 307] :=
  ⟨by decide,
   (c8_logout_contract auth0 (some sessAuthTrue) true "id" (by decide)).1,
   (c8_logout_contract auth0 (some sessAuthTrue) true "id" (by decide)).2.2.2.1 rfl⟩

/-! Claim C9. -/

/-- C9: logout is idempotent.  The session each logout passes to Save has
    `authenticated = false`; running logout again on the session persisted
    by a first logout again yields `authenticated = false`; and the second
    call's outcome depends only on its own save result — when its save
    succeeds it redirects normally, regardless of the state the first call
    left.  Confirmed. -/
theorem c9_logout_idempotent (a : Auth) (cookie : Option Session) (ok1 ok2 : Bool) :
    ((logout a cookie ok1).savedSession.getD emptySession).get "authenticated" =
      some (SessionValue.vBool false) ∧
    ((logout a (logout a cookie ok1).savedSession ok2).savedSession.getD
        emptySession).get "authenticated" = some (SessionValue.vBool false) ∧
    (ok2 = true →
      (logout a (logout a cookie ok1).savedSession ok2).actions =
        [ResponseAction.redirect "/" 307]) := by
  refine ⟨?_, ?_, ?_⟩
  · cases ok1 <;> simp [logout, Session.get_set_same]
  · cases ok1 <;> cases ok2 <;> simp [logout, Session.get_set_same]
  · intro h; subst h; cases ok1 <;> simp [logout]

/-- C9 witness: two concrete consecutive logouts, both saves succeeding. -/
theorem c9_logout_idempotent_witness :
    ((logout auth0 (logout auth0 (some sessAuthTrue) true).savedSession
        true).savedSession.getD emptySession).get "authenticated" =
      some (SessionValue.vBool false) ∧
    (logout auth0 (logout auth0 (some sessAuthTrue) true).savedSession
        true).actions = [ResponseAction.redirect "/" 307] :=
  ⟨(c9_logout_idempotent auth0 (some sessAuthTrue) true true).2.1,
   (c9_logout_idempotent auth0 (some sessAuthTrue) true true).2.2 rfl⟩

/-! Claim C10. -/

/-- C10: frame invariant on the shared `Auth` value.  Logout, the callback
    handler and the authorization gate return the `Auth` value exactly as
    received — none of them writes `oauthStateString`, the provider config
    or the store — and login changes nothing but `oauthStateString`.
    Confirmed (all session changes live in the per-request cookie). -/
theorem c10_handlers_frame_on_auth (a : Auth) (cookie : Option Session)
    (saveOk : Bool) (state code : String) (env : ProviderEnv)
    (randSrc : Option (List Nat)) :
    (logout a cookie saveOk).authOut = a ∧
    (handleGoogleCallback a state code env).authOut = a ∧
    (IsAuthenticated a cookie).authOut = a ∧
    (login a randSrc).authOut.googleOauthConfig = a.googleOauthConfig ∧
    (login a randSrc).authOut.storeKey = a.storeKey := by
  refine ⟨?_, ?_, ?_, rfl, rfl⟩
  · cases saveOk <;> rfl
  · simp only [handleGoogleCallback]
    split
    · split <;> rfl
    · rfl
  · simp only [IsAuthenticated]
    split <;> rfl

end Authsession
